import Mathlib

/-!
# Verification of the ai-audit web client and operator scripts

Shallow embedding of the repository's visible behavior:
* the REST client (`src/src/pages/workspaces/ExportsPage.tsx`, client section:
  `ApiError`, `request`, `workspacesApi` … `exportsApi`),
* the data-fetching hooks (`src/apps/web/src/hooks/*.ts`, `src/unnamed/part_002`,
  `src/unnamed/part_003`),
* the application query client (`src/src/App.tsx`),
* the PowerShell smoke-test script (`src/unnamed/part_004`).

Machine integers do not occur; JavaScript strings are `String`, optional JSON
fields are `Option`, thrown errors are the `.error` side of `Except`.
-/

namespace AiAudit

/-- `pat` starts the character list `s`. -/
def leadsWith : List Char → List Char → Bool
  | [], _ => true
  | _ :: _, [] => false
  | a :: as, b :: bs => a == b && leadsWith as bs

/-- `pat` occurs somewhere in the character list `s`. -/
def charsContain (pat : List Char) : List Char → Bool
  | [] => leadsWith pat []
  | b :: bs => leadsWith pat (b :: bs) || charsContain pat bs

/-- JavaScript `s.includes(pat)`: substring test on the characters.
Embeds `contentType?.includes(...)`. -/
def strIncludes (s pat : String) : Bool := charsContain pat.data s.data

/-- The single client error type (`class ApiError extends Error`), carrying
`message`, HTTP `status` and an optional `code`. -/
structure ApiError where
  message : String
  status : Nat
  code : Option String := none
  deriving DecidableEq, Repr

/-- The parts of a parsed JSON response body the client inspects:
`data.message` and `data.code`. -/
structure ServerBody where
  message : Option String := none
  code : Option String := none
  deriving DecidableEq, Repr

/-- An HTTP response as seen by the client: `response.ok`, `response.status`,
the `content-type` header (absent or a string), and the parsed body. -/
structure HttpResponse where
  ok : Bool
  status : Nat
  contentType : Option String
  body : ServerBody
  deriving DecidableEq, Repr

/-- Fallback message thrown by `request` when `API_BASE_URL` is empty. -/
def fallbackUnconfigured : String :=
  "API not configured. Set VITE_API_BASE_URL environment variable."

/-- Fallback message thrown by `request` on a non-JSON content type. -/
def fallbackNonJson : String :=
  "API returned non-JSON response. Check VITE_API_BASE_URL configuration."

/-- Fallback message for a non-OK JSON response without a `message` field. -/
def fallbackGeneric : String := "An error occurred"

/-- Fallback message for a failed `documentsApi.upload`. -/
def fallbackUpload : String := "Upload failed"

/-- Fixed message for a failed `exportsApi.download`. -/
def fallbackDownload : String := "Download failed"

/-- `contentType?.includes('application/json')`: `none` (absent header) is
falsy, otherwise a substring test. -/
def contentTypeIsJson : Option String → Bool
  | none => false
  | some ct => strIncludes ct "application/json"

/-- Embeds the shared `request` helper. The `Bool` component records whether a
network `fetch` was issued; the `Except` component is the returned value or the
thrown `ApiError`. Branch order follows the source: empty-base guard (before
any fetch), content-type guard, `response.ok` check, then the parsed body. -/
def request (apiBase : String) (resp : HttpResponse) :
    Bool × Except ApiError ServerBody :=
  if apiBase = "" then
    (false, .error ⟨fallbackUnconfigured, 0, none⟩)
  else if contentTypeIsJson resp.contentType = false then
    (true, .error ⟨fallbackNonJson, resp.status, none⟩)
  else if resp.ok = false then
    (true, .error ⟨resp.body.message.getD fallbackGeneric, resp.status, resp.body.code⟩)
  else
    (true, .ok resp.body)

/-- Embeds `documentsApi.upload`: a multipart `fetch` with no base-URL guard,
throwing `ApiError(error.message || 'Upload failed', response.status)` on a
non-OK response. The `Bool` component records that the fetch is always issued. -/
def documentsUpload (resp : HttpResponse) :
    Bool × Except ApiError ServerBody :=
  (true,
    if resp.ok = false then
      .error ⟨resp.body.message.getD fallbackUpload, resp.status, none⟩
    else
      .ok resp.body)

/-- Embeds `exportsApi.download`: a blob `fetch` with no base-URL guard,
throwing `ApiError('Download failed', response.status)` on a non-OK response;
`Unit` stands for the returned blob. -/
def exportsDownload (resp : HttpResponse) : Bool × Except ApiError Unit :=
  (true, if resp.ok = false then .error ⟨fallbackDownload, resp.status, none⟩ else .ok ())

/-- The URL a fetch targets: `${API_BASE_URL}` plus the endpoint path,
kept as base and path segments. A fetch with an empty base targets a
relative URL (no host). -/
structure FetchUrl where
  base : String
  pathSegments : List String
  deriving DecidableEq, Repr

/-- A URL is relative exactly when the configured base is empty. -/
def FetchUrl.isRelative (u : FetchUrl) : Bool := u.base == ""

/-- URL of the `documentsApi.upload` fetch:
`${API_BASE_URL}/workspaces/${workspaceId}/documents`. -/
def uploadFetchUrl (apiBase workspaceId : String) : FetchUrl :=
  ⟨apiBase, ["workspaces", workspaceId, "documents"]⟩

/-- URL of the `exportsApi.download` fetch:
`${API_BASE_URL}/workspaces/${workspaceId}/exports/${exportId}/download`. -/
def downloadFetchUrl (apiBase workspaceId exportId : String) : FetchUrl :=
  ⟨apiBase, ["workspaces", workspaceId, "exports", exportId, "download"]⟩

/-! ## Pipeline data model and `usePipeline` polling (src/apps/web/src/hooks/usePipeline.ts) -/

/-- Overall pipeline status (`src/src/types/index.ts`, `Pipeline.status`). -/
inductive PipelineStatus
  | idle
  | running
  | completed
  | failed
  deriving DecidableEq, Repr

/-- The part of the `Pipeline` resource the polling logic inspects. -/
structure Pipeline where
  status : PipelineStatus
  overallProgress : Nat
  deriving DecidableEq, Repr

/-- The uniform single-resource envelope `{ data, message? }`
(`src/src/types/index.ts`, `ApiResponse<T>`). -/
structure ApiResponse (α : Type) where
  data : α
  message : Option String := none
  deriving DecidableEq, Repr

/-- Embeds the `refetchInterval` callback of `usePipeline`: reads
`query.state.data?.data.status` and returns `5000` when it is `'running'`,
otherwise `false` (here `none`). -/
def refetchInterval (d : Option (ApiResponse Pipeline)) : Option Nat :=
  match d with
  | some r => if r.data.status = .running then some 5000 else none
  | none => none

/-! ## Request paths of the REST client and the smoke script -/

/-- HTTP method of a request. -/
inductive Method
  | get
  | post
  | patch
  | delete
  deriving DecidableEq, Repr

/-- A request issued against the backend: method plus URL path segments. -/
structure Request where
  method : Method
  path : List String
  deriving DecidableEq, Repr

/-- The requests the REST client can issue, one per operation of
`workspacesApi`, `documentsApi`, `interviewsApi`, `pipelineApi`,
`exportsApi`, with the id arguments abstract. -/
def clientRequests (wid did iid eid : String) : List Request :=
  [ ⟨.get, ["workspaces"]⟩,                                        -- workspacesApi.list
    ⟨.get, ["workspaces", wid]⟩,                                   -- workspacesApi.get
    ⟨.post, ["workspaces"]⟩,                                       -- workspacesApi.create
    ⟨.patch, ["workspaces", wid]⟩,                                 -- workspacesApi.update
    ⟨.delete, ["workspaces", wid]⟩,                                -- workspacesApi.delete
    ⟨.get, ["workspaces", wid, "documents"]⟩,                      -- documentsApi.list
    ⟨.post, ["workspaces", wid, "documents"]⟩,                     -- documentsApi.upload
    ⟨.delete, ["workspaces", wid, "documents", did]⟩,              -- documentsApi.delete
    ⟨.get, ["workspaces", wid, "interviews"]⟩,                     -- interviewsApi.list
    ⟨.get, ["workspaces", wid, "interviews", iid]⟩,                -- interviewsApi.get
    ⟨.post, ["workspaces", wid, "interviews"]⟩,                    -- interviewsApi.create
    ⟨.get, ["workspaces", wid, "interviews", iid, "questions"]⟩,   -- interviewsApi.getQuestions
    ⟨.post, ["workspaces", wid, "interviews", iid, "responses"]⟩,  -- interviewsApi.submitResponses
    ⟨.get, ["workspaces", wid, "pipeline"]⟩,                       -- pipelineApi.get
    ⟨.post, ["workspaces", wid, "pipeline", "start"]⟩,             -- pipelineApi.start
    ⟨.post, ["workspaces", wid, "pipeline", "cancel"]⟩,            -- pipelineApi.cancel
    ⟨.get, ["workspaces", wid, "exports"]⟩,                        -- exportsApi.list
    ⟨.post, ["workspaces", wid, "exports"]⟩,                       -- exportsApi.create
    ⟨.get, ["workspaces", wid, "exports", eid, "download"]⟩ ]      -- exportsApi.download

/-- The three pipeline endpoint paths the spec's interface section lists:
`GET/POST /workspaces/{id}/pipeline[/start|/cancel]`. Written from the
spec's words, for comparison with the code's requests. -/
def specPipelinePath : List String → Bool
  | ["workspaces", _, "pipeline"] => true
  | ["workspaces", _, "pipeline", "start"] => true
  | ["workspaces", _, "pipeline", "cancel"] => true
  | _ => false

/-- Suffixes under `/workspaces/{id}/` that the spec's endpoint list allows;
the open-ended `[/...]` of documents, interviews and exports is read
generously as any sub-path of those collections. Written from the spec's
words, for comparison with the code's requests. -/
def specWorkspaceSubPath : List String → Bool
  | [] => true
  | "documents" :: _ => true
  | "interviews" :: _ => true
  | "exports" :: _ => true
  | ["pipeline"] => true
  | ["pipeline", "start"] => true
  | ["pipeline", "cancel"] => true
  | _ => false

/-- Endpoint paths listed in the spec's interface section (section 6).
Written from the spec's words, for comparison with the code's requests. -/
def specAllowed : List String → Bool
  | ["workspaces"] => true
  | "workspaces" :: _ :: rest => specWorkspaceSubPath rest
  | _ => false

/-- The requests the smoke-test script (`src/unnamed/part_004`) issues, in
source order: reachability probe, create workspace, start run, poll status
(repeated), list artifacts, download an artifact, list exports, download an
export. -/
def smokeRequests (wid runId artId expId : String) : List Request :=
  [ ⟨.get, ["openapi.json"]⟩,
    ⟨.post, ["workspaces"]⟩,
    ⟨.post, ["workspaces", wid, "pipeline", "run"]⟩,
    ⟨.get, ["workspaces", wid, "pipeline", "status"]⟩,
    ⟨.get, ["workspaces", wid, "runs", runId, "artifacts"]⟩,
    ⟨.get, ["workspaces", wid, "runs", runId, "artifacts", artId, "download"]⟩,
    ⟨.get, ["workspaces", wid, "exports"]⟩,
    ⟨.get, ["workspaces", wid, "exports", expId, "download"]⟩ ]

/-! ## Smoke-test polling loop (src/unnamed/part_004, lines 43-62) -/

/-- The break condition of the polling loop:
`$runStatus -in @("succeeded","failed","cancelled")`. -/
def isTerminal (s : String) : Bool :=
  s == "succeeded" || s == "failed" || s == "cancelled"

/-- Result of the polling loop: normal exit with the final status, or the
timeout `throw`. -/
inductive SmokeResult
  | finished (s : String)
  | timedOut
  deriving DecidableEq, Repr

/-- One-pass embedding of the polling loop, fuel-indexed. At iteration `k` the
elapsed time since `$start` is `k * poll` seconds (`k` completed sleeps of
`$PollSeconds`): fetch the status, break on a terminal status, throw when
elapsed time exceeds `$TimeoutSeconds`, else sleep and loop. `none` means the
fuel ran out, which `pollLoop_isSome` rules out for the fuel used below. -/
def pollAux (timeout poll : Nat) (statuses : Nat → String) :
    Nat → Nat → Option SmokeResult
  | 0, _ => none
  | fuel + 1, k =>
    if isTerminal (statuses k) then some (.finished (statuses k))
    else if k * poll > timeout then some .timedOut
    else pollAux timeout poll statuses fuel (k + 1)

/-- The polling loop of the smoke script, run from iteration 0 with enough
fuel to reach the timeout throw. -/
def pollLoop (timeout poll : Nat) (statuses : Nat → String) : Option SmokeResult :=
  pollAux timeout poll statuses (timeout / poll + 2) 0

/-- The check after the loop: `if ($runStatus -ne "succeeded") { throw ... }`;
the timeout case re-raises the loop's own throw. -/
def smokeAfterLoop (timeout : Nat) : Option SmokeResult → Except String Unit
  | some (.finished s) =>
    if s == "succeeded" then .ok ()
    else .error ("Run ended with status: " ++ s)
  | some .timedOut =>
    .error ("Timeout waiting for run to finish after " ++ toString timeout ++ " seconds.")
  | none => .error "loop did not terminate"

/-! ## Response envelopes (src/src/types/index.ts) and the smoke script's field reads -/

/-- The paginated list envelope `PaginatedResponse<T>`
(`{ data[], total, page, pageSize, totalPages }`). -/
structure PaginatedResponse (α : Type) where
  data : List α
  total : Nat
  page : Nat
  pageSize : Nat
  totalPages : Nat
  deriving DecidableEq, Repr

/-- Field names of the paginated envelope, mirroring the declaration order of
`PaginatedResponse` in `src/src/types/index.ts`. -/
def paginatedResponseFields : List String :=
  ["data", "total", "page", "pageSize", "totalPages"]

/-- Field names of the single-resource envelope `ApiResponse<T>`
(`message` optional). -/
def apiResponseFields : List String := ["data", "message"]

/-- Fields the smoke script reads from the artifacts list response
(`$arts.total`, `$arts.items`). -/
def smokeArtifactListFields : List String := ["total", "items"]

/-- Fields the smoke script reads from the exports list response
(`$exports.total`, `$exports.items`). -/
def smokeExportListFields : List String := ["total", "items"]

/-- Response shape of a client operation, as annotated in the source:
`request<PaginatedResponse<...>>`, `request<ApiResponse<...>>`, or a blob. -/
inductive RespShape
  | paginated
  | single
  | blob
  deriving DecidableEq, Repr

/-- Every client operation with the response shape its source annotation
declares. -/
def clientOpShapes : List (String × RespShape) :=
  [ ("workspacesApi.list", .paginated),
    ("workspacesApi.get", .single),
    ("workspacesApi.create", .single),
    ("workspacesApi.update", .single),
    ("workspacesApi.delete", .single),
    ("documentsApi.list", .paginated),
    ("documentsApi.upload", .single),
    ("documentsApi.delete", .single),
    ("interviewsApi.list", .paginated),
    ("interviewsApi.get", .single),
    ("interviewsApi.create", .single),
    ("interviewsApi.getQuestions", .single),
    ("interviewsApi.submitResponses", .single),
    ("pipelineApi.get", .single),
    ("pipelineApi.start", .single),
    ("pipelineApi.cancel", .single),
    ("exportsApi.list", .paginated),
    ("exportsApi.create", .single),
    ("exportsApi.download", .blob) ]

/-- The four list operations of the client. -/
def listOpNames : List String :=
  ["workspacesApi.list", "documentsApi.list", "interviewsApi.list", "exportsApi.list"]

/-! ## Query client defaults (src/src/App.tsx) and query hook configurations -/

/-- The `QueryClient` default options: `retry: 1`,
`refetchOnWindowFocus: false`. -/
structure QueryClientDefaults where
  retry : Nat
  refetchOnWindowFocus : Bool
  deriving DecidableEq, Repr

/-- The application's query client configuration. -/
def queryClient : QueryClientDefaults := { retry := 1, refetchOnWindowFocus := false }

/-- The options a `useQuery` hook passes: its cache key, its `enabled` flag
(`true` when omitted), and a per-hook `retry` override (`none`: none of the
hooks sets one). -/
structure QueryConfig where
  queryKey : List String
  enabled : Bool := true
  retryOverride : Option Nat := none
  deriving DecidableEq, Repr

/-- `useWorkspaces` (ExportsPage.tsx client section): key `['workspaces']`,
no `enabled` gate. -/
def useWorkspacesConfig : QueryConfig := { queryKey := ["workspaces"] }

/-- `useWorkspace(id)`: key `['workspaces', id]`, `enabled: !!id`. -/
def useWorkspaceConfig (id : String) : QueryConfig :=
  { queryKey := ["workspaces", id], enabled := id != "" }

/-- `useDocuments(workspaceId)`: key `['documents', workspaceId]`,
`enabled: !!workspaceId`. -/
def useDocumentsConfig (workspaceId : String) : QueryConfig :=
  { queryKey := ["documents", workspaceId], enabled := workspaceId != "" }

/-- `usePipeline(workspaceId)`: key `['pipeline', workspaceId]`,
`enabled: !!workspaceId` (its `refetchInterval` is `refetchInterval` above). -/
def usePipelineConfig (workspaceId : String) : QueryConfig :=
  { queryKey := ["pipeline", workspaceId], enabled := workspaceId != "" }

/-- `useInterviews(workspaceId)`: key `['interviews', workspaceId]`,
`enabled: !!workspaceId`. -/
def useInterviewsConfig (workspaceId : String) : QueryConfig :=
  { queryKey := ["interviews", workspaceId], enabled := workspaceId != "" }

/-- `useInterview(workspaceId, interviewId)`: key
`['interviews', workspaceId, interviewId]`,
`enabled: !!workspaceId && !!interviewId`. -/
def useInterviewConfig (workspaceId interviewId : String) : QueryConfig :=
  { queryKey := ["interviews", workspaceId, interviewId],
    enabled := workspaceId != "" && interviewId != "" }

/-- `useInterviewQuestions(workspaceId, interviewId)`: key
`['interviews', workspaceId, interviewId, 'questions']`,
`enabled: !!workspaceId && !!interviewId`. -/
def useInterviewQuestionsConfig (workspaceId interviewId : String) : QueryConfig :=
  { queryKey := ["interviews", workspaceId, interviewId, "questions"],
    enabled := workspaceId != "" && interviewId != "" }

/-- `useExports(workspaceId)`: key `['exports', workspaceId]`,
`enabled: !!workspaceId`. -/
def useExportsConfig (workspaceId : String) : QueryConfig :=
  { queryKey := ["exports", workspaceId], enabled := workspaceId != "" }

/-- Modelled from the spec: the query library (not part of this repository)
fetches only queries whose `enabled` flag is true; a disabled query issues no
HTTP request. -/
def queryIssuesFetch (c : QueryConfig) : Bool := c.enabled

/-- The effective retry count of a query: the hook override when set,
otherwise the query client default. -/
def effectiveRetry (c : QueryConfig) : Nat := c.retryOverride.getD queryClient.retry

/-- Modelled from the spec: the query library attempts a failing query
`1 + retry` times (the initial attempt plus `retry` retries) before
surfacing the error. -/
def attemptsBeforeError (retry : Nat) : Nat := 1 + retry

/-- All `useQuery` hook configurations of the client, id arguments abstract. -/
def allQueryConfigs (workspaceId interviewId : String) : List QueryConfig :=
  [ useWorkspacesConfig,
    useWorkspaceConfig workspaceId,
    useDocumentsConfig workspaceId,
    usePipelineConfig workspaceId,
    useInterviewsConfig workspaceId,
    useInterviewConfig workspaceId interviewId,
    useInterviewQuestionsConfig workspaceId interviewId,
    useExportsConfig workspaceId ]

/-- The parameterized query hooks (those of claim scope: all but the
parameterless `useWorkspaces`). -/
def parameterizedQueryConfigs (workspaceId interviewId : String) : List QueryConfig :=
  (allQueryConfigs workspaceId interviewId).drop 1

/-! ## Mutation hooks and their cache effects -/

/-- The client-side cache effects a `useMutation` hook configures: query keys
invalidated in `onSuccess`, query keys invalidated on error (none of the hooks
declares an `onError` handler), and direct cache writes via `setQueryData`
(none of the hooks performs any). -/
structure MutationConfig where
  onSuccessInvalidated : List (List String)
  onErrorInvalidated : List (List String) := []
  cacheWrites : List (List String) := []
  deriving DecidableEq, Repr

/-- `useCreateWorkspace`: invalidates `['workspaces']` on success. -/
def useCreateWorkspaceMutation : MutationConfig :=
  { onSuccessInvalidated := [["workspaces"]] }

/-- `useUpdateWorkspace`: invalidates `['workspaces']` and
`['workspaces', id]` on success. -/
def useUpdateWorkspaceMutation (id : String) : MutationConfig :=
  { onSuccessInvalidated := [["workspaces"], ["workspaces", id]] }

/-- `useDeleteWorkspace`: invalidates `['workspaces']` on success. -/
def useDeleteWorkspaceMutation : MutationConfig :=
  { onSuccessInvalidated := [["workspaces"]] }

/-- `useUploadDocument`: invalidates `['documents', workspaceId]` and
`['workspaces', workspaceId]` on success. -/
def useUploadDocumentMutation (workspaceId : String) : MutationConfig :=
  { onSuccessInvalidated := [["documents", workspaceId], ["workspaces", workspaceId]] }

/-- `useDeleteDocument`: invalidates `['documents', workspaceId]` and
`['workspaces', workspaceId]` on success. -/
def useDeleteDocumentMutation (workspaceId : String) : MutationConfig :=
  { onSuccessInvalidated := [["documents", workspaceId], ["workspaces", workspaceId]] }

/-- `useCreateInterview`: invalidates `['interviews', workspaceId]` and
`['workspaces', workspaceId]` on success. -/
def useCreateInterviewMutation (workspaceId : String) : MutationConfig :=
  { onSuccessInvalidated := [["interviews", workspaceId], ["workspaces", workspaceId]] }

/-- `useSubmitInterviewResponses`: invalidates
`['interviews', workspaceId, interviewId]` and `['interviews', workspaceId]`
on success. -/
def useSubmitInterviewResponsesMutation (workspaceId interviewId : String) : MutationConfig :=
  { onSuccessInvalidated :=
      [["interviews", workspaceId, interviewId], ["interviews", workspaceId]] }

/-- `useCreateExport`: invalidates `['exports', workspaceId]` on success. -/
def useCreateExportMutation (workspaceId : String) : MutationConfig :=
  { onSuccessInvalidated := [["exports", workspaceId]] }

/-- `useStartPipeline`: invalidates `['pipeline', workspaceId]` on success. -/
def useStartPipelineMutation (workspaceId : String) : MutationConfig :=
  { onSuccessInvalidated := [["pipeline", workspaceId]] }

/-- `useCancelPipeline`: invalidates `['pipeline', workspaceId]` on success. -/
def useCancelPipelineMutation (workspaceId : String) : MutationConfig :=
  { onSuccessInvalidated := [["pipeline", workspaceId]] }

/-- A query key belongs to a mutation on resource `res` in workspace `wid`
when it is a key of that resource (head segment `res`) or a key of the parent
workspace (`['workspaces']` or `['workspaces', wid]`). -/
def allowedInvalidation (res wid : String) (k : List String) : Prop :=
  k.head? = some res ∨ k = ["workspaces"] ∨ k = ["workspaces", wid]

/-- Every mutation hook of the client, paired with the resource it mutates;
`wsId` is the id argument of `useUpdateWorkspace`, `wid` the workspace id of
the nested resources, `iid` the interview id. -/
def mutationHooks (wid wsId iid : String) : List (MutationConfig × String) :=
  [ (useCreateWorkspaceMutation, "workspaces"),
    (useUpdateWorkspaceMutation wsId, "workspaces"),
    (useDeleteWorkspaceMutation, "workspaces"),
    (useUploadDocumentMutation wid, "documents"),
    (useDeleteDocumentMutation wid, "documents"),
    (useCreateInterviewMutation wid, "interviews"),
    (useSubmitInterviewResponsesMutation wid iid, "interviews"),
    (useCreateExportMutation wid, "exports"),
    (useStartPipelineMutation wid, "pipeline"),
    (useCancelPipelineMutation wid, "pipeline") ]

/-! ## Theorems -/

/-- C2: the `refetchInterval` callback of `usePipeline` returns 5000
milliseconds exactly when the last fetched pipeline status is `running`, and
`false` (here `none`) for every other status and when no data has been
fetched yet. -/
theorem usePipeline_polls_iff_running (d : Option (ApiResponse Pipeline)) :
    (refetchInterval d = some 5000 ↔ ∃ r, d = some r ∧ r.data.status = .running) ∧
    (∀ r, d = some r → r.data.status ≠ .running → refetchInterval d = none) ∧
    refetchInterval (none : Option (ApiResponse Pipeline)) = none := by
  refine ⟨?_, ?_, rfl⟩
  · cases d with
    | none => simp [refetchInterval]
    | some r =>
      by_cases h : r.data.status = .running <;> simp [refetchInterval, h]
  · rintro r rfl h
    simp [refetchInterval, h]

/-- Witness for C2 at a concrete running pipeline. -/
theorem usePipeline_polls_iff_running_witness :
    refetchInterval (some { data := { status := .running, overallProgress := 0 } })
      = some 5000 :=
  (usePipeline_polls_iff_running _).1.mpr ⟨_, rfl, rfl⟩

/-- C6: the query client's fixed retry count is 1, so a persistently failing
query makes two attempts (one retry) before the error surfaces, and no query
hook overrides the retry behaviour. -/
theorem queries_retry_once (workspaceId interviewId : String) :
    queryClient.retry = 1 ∧
    attemptsBeforeError queryClient.retry = 2 ∧
    ∀ c ∈ allQueryConfigs workspaceId interviewId,
      c.retryOverride = none ∧ effectiveRetry c = 1 := by
  refine ⟨rfl, rfl, ?_⟩
  intro c hc
  fin_cases hc <;> exact ⟨rfl, rfl⟩

/-- Witness for C6 at the documents query with a concrete workspace id. -/
theorem queries_retry_once_witness :
    effectiveRetry (useDocumentsConfig "w") = 1 :=
  ((queries_retry_once "w" "i").2.2 (useDocumentsConfig "w") (by decide)).2

/-- C8: with an empty `API_BASE_URL`, the shared `request` helper throws an
`ApiError` with status 0 and issues no fetch, while `documentsApi.upload` and
`exportsApi.download` have no such guard: they always issue their fetch, whose
URL is relative when the base is empty. -/
theorem empty_base_fails_fast_only_for_json_ops
    (resp : HttpResponse) (wid eid : String) :
    (request "" resp).1 = false ∧
    (request "" resp).2 = .error ⟨fallbackUnconfigured, 0, none⟩ ∧
    (documentsUpload resp).1 = true ∧
    (exportsDownload resp).1 = true ∧
    (uploadFetchUrl "" wid).isRelative = true ∧
    (downloadFetchUrl "" wid eid).isRelative = true ∧
    ∀ base, base ≠ "" → (request base resp).1 = true := by
  refine ⟨rfl, rfl, rfl, rfl, rfl, rfl, ?_⟩
  intro base hb
  by_cases h1 : contentTypeIsJson resp.contentType = false
  · simp [request, hb, h1]
  · by_cases h2 : resp.ok = false <;> simp [request, hb, h1, h2]

/-- Witness for C8 at a concrete response. -/
theorem empty_base_fails_fast_only_for_json_ops_witness :
    (request "" { ok := true, status := 200,
                  contentType := some "application/json", body := {} }).1 = false :=
  (empty_base_fails_fast_only_for_json_ops _ "w" "e").1

/-- C9: with a configured base URL, `request` throws on any response whose
content-type does not include `application/json` (whatever the HTTP status),
and returns a success value — always the parsed body — exactly when the
response is OK and carries a JSON content-type. -/
theorem request_success_iff_ok_json (base : String) (resp : HttpResponse)
    (hbase : base ≠ "") :
    (contentTypeIsJson resp.contentType = false →
      (request base resp).2 = .error ⟨fallbackNonJson, resp.status, none⟩) ∧
    ((∃ v, (request base resp).2 = .ok v) ↔
      resp.ok = true ∧ contentTypeIsJson resp.contentType = true) ∧
    (∀ v, (request base resp).2 = .ok v → v = resp.body) := by
  rcases hct : contentTypeIsJson resp.contentType with _ | _ <;>
    rcases hok : resp.ok with _ | _ <;>
      simp [request, hbase, hct, hok]

/-- Witness for C9 at a concrete base URL and response. -/
theorem request_success_iff_ok_json_witness :
    ({} : ServerBody) =
      (HttpResponse.mk true 200 (some "application/json") {}).body :=
  (request_success_iff_ok_json "http://api"
      { ok := true, status := 200, contentType := some "application/json", body := {} }
      (by decide)).2.2 {} rfl

/-- C10: each parameterized query hook is enabled exactly when all of its id
arguments are non-empty, and a hook with an empty workspace id issues no
fetch. -/
theorem queries_disabled_on_empty_ids (workspaceId interviewId : String) :
    ((useDocumentsConfig workspaceId).enabled = true ↔ workspaceId ≠ "") ∧
    ((usePipelineConfig workspaceId).enabled = true ↔ workspaceId ≠ "") ∧
    ((useInterviewsConfig workspaceId).enabled = true ↔ workspaceId ≠ "") ∧
    ((useInterviewConfig workspaceId interviewId).enabled = true ↔
      (workspaceId ≠ "" ∧ interviewId ≠ "")) ∧
    ((useInterviewQuestionsConfig workspaceId interviewId).enabled = true ↔
      (workspaceId ≠ "" ∧ interviewId ≠ "")) ∧
    ((useExportsConfig workspaceId).enabled = true ↔ workspaceId ≠ "") ∧
    ((useWorkspaceConfig workspaceId).enabled = true ↔ workspaceId ≠ "") ∧
    (workspaceId = "" →
      ∀ c ∈ parameterizedQueryConfigs workspaceId interviewId,
        queryIssuesFetch c = false) := by
  refine ⟨?_, ?_, ?_, ?_, ?_, ?_, ?_, ?_⟩ <;>
    try simp [useDocumentsConfig, usePipelineConfig, useInterviewsConfig,
      useInterviewConfig, useInterviewQuestionsConfig, useExportsConfig,
      useWorkspaceConfig]
  rintro rfl c hc
  fin_cases hc <;> rfl

/-- Witness for C10: the documents query with an empty workspace id issues no
fetch. -/
theorem queries_disabled_on_empty_ids_witness :
    queryIssuesFetch (useDocumentsConfig "") = false :=
  (queries_disabled_on_empty_ids "" "i").2.2.2.2.2.2.2 rfl
    (useDocumentsConfig "") (by decide)

/-- C1 counterexample: a failed `exportsApi.download` response whose JSON body
carries `message: "boom"` is reported with the fixed message
`'Download failed'`, not the server's message. -/
theorem download_error_ignores_server_message :
    (exportsDownload { ok := false, status := 500,
                       contentType := some "application/json",
                       body := { message := some "boom", code := none } }).2
      = .error { message := fallbackDownload, status := 500, code := none } ∧
    fallbackDownload ≠ "boom" :=
  ⟨rfl, by decide⟩

/-- C1 amended: every failed response is reported through the single error
type `ApiError` carrying the HTTP status; the JSON helper's server-error path
and `documentsApi.upload` use the server's `message` when present (else a
fixed fallback) and only the JSON helper carries the server's `code`, while
the unconfigured-base, non-JSON-content and `exportsApi.download` paths use
fixed messages regardless of the body. -/
theorem failures_wrapped_in_ApiError (base : String) (resp : HttpResponse) :
    (base = "" →
      (request base resp).2 = .error ⟨fallbackUnconfigured, 0, none⟩) ∧
    (base ≠ "" → contentTypeIsJson resp.contentType = false →
      (request base resp).2 = .error ⟨fallbackNonJson, resp.status, none⟩) ∧
    (base ≠ "" → contentTypeIsJson resp.contentType = true → resp.ok = false →
      (request base resp).2 =
        .error ⟨resp.body.message.getD fallbackGeneric, resp.status, resp.body.code⟩) ∧
    (resp.ok = false →
      (documentsUpload resp).2 =
        .error ⟨resp.body.message.getD fallbackUpload, resp.status, none⟩) ∧
    (resp.ok = false →
      (exportsDownload resp).2 = .error ⟨fallbackDownload, resp.status, none⟩) := by
  refine ⟨fun hb => by simp [request, hb], fun hb hct => by simp [request, hb, hct],
    fun hb hct hok => by simp [request, hb, hct, hok],
    fun hok => by simp [documentsUpload, hok],
    fun hok => by simp [exportsDownload, hok]⟩

/-- Witness for the amended C1 at a concrete failed JSON response. -/
theorem failures_wrapped_in_ApiError_witness :
    (request "http://api"
        { ok := false, status := 404,
          contentType := some "application/json",
          body := { message := some "not found", code := some "NF" } }).2
      = .error ⟨"not found", 404, some "NF"⟩ :=
  (failures_wrapped_in_ApiError "http://api"
      { ok := false, status := 404,
        contentType := some "application/json",
        body := { message := some "not found", code := some "NF" } }).2.2.1
    (by decide) (by decide) rfl

/-- C5 counterexample: the smoke script reads the `items` field of the
artifact and export list responses, but `items` is not a field of the
paginated envelope (whose array field is `data`). -/
theorem smoke_items_not_an_envelope_field :
    "items" ∈ smokeArtifactListFields ∧
    "items" ∈ smokeExportListFields ∧
    "items" ∉ paginatedResponseFields ∧
    "data" ∈ paginatedResponseFields := by decide

/-- C5 amended: exactly the four list operations are annotated with the
paginated envelope `{ data[], total, page, pageSize, totalPages }` and every
other operation with `{ data, message? }` (the download returning a blob);
the smoke script's `total` read is consistent with the paginated envelope but
its `items` read is not, since the envelope's array field is named `data`. -/
theorem list_ops_use_paginated_envelope :
    (∀ p ∈ clientOpShapes, p.1 ∈ listOpNames ↔ p.2 = .paginated) ∧
    (∀ p ∈ clientOpShapes, p.1 ∉ listOpNames → p.1 ≠ "exportsApi.download" →
      p.2 = .single) ∧
    paginatedResponseFields = ["data", "total", "page", "pageSize", "totalPages"] ∧
    apiResponseFields = ["data", "message"] ∧
    "total" ∈ paginatedResponseFields ∧
    "total" ∈ smokeArtifactListFields ∧
    "items" ∈ smokeArtifactListFields ∧
    "items" ∉ paginatedResponseFields := by decide

/-- Witness for the amended C5 at the workspaces list operation. -/
theorem list_ops_use_paginated_envelope_witness :
    ("workspacesApi.list" : String) ∈ listOpNames :=
  (list_ops_use_paginated_envelope.1 ("workspacesApi.list", .paginated) (by decide)).mpr rfl

/-- C3 counterexample: the smoke script issues
`POST /workspaces/{wid}/pipeline/run` and `GET /workspaces/{wid}/pipeline/status`,
neither of which is among the endpoint paths of the spec's interface
section. -/
theorem smoke_pipeline_paths_outside_spec :
    (⟨.post, ["workspaces", "w1", "pipeline", "run"]⟩ : Request)
        ∈ smokeRequests "w1" "r1" "a1" "e1" ∧
    specAllowed ["workspaces", "w1", "pipeline", "run"] = false ∧
    (⟨.get, ["workspaces", "w1", "pipeline", "status"]⟩ : Request)
        ∈ smokeRequests "w1" "r1" "a1" "e1" ∧
    specAllowed ["workspaces", "w1", "pipeline", "status"] = false := by decide

/-- C3 amended: every request of the REST client targets a spec-listed
endpoint path, and its pipeline operations use exactly
`GET /workspaces/{id}/pipeline`, `POST .../pipeline/start` and
`POST .../pipeline/cancel`; the smoke script, however, additionally targets
`/openapi.json`, `.../pipeline/run`, `.../pipeline/status` and
`.../runs/{runId}/artifacts[...]`, none of which the spec lists. -/
theorem client_paths_match_spec
    (wid did iid eid runId artId : String) :
    (∀ r ∈ clientRequests wid did iid eid, specAllowed r.path = true) ∧
    (⟨.get, ["workspaces", wid, "pipeline"]⟩ : Request) ∈ clientRequests wid did iid eid ∧
    (⟨.post, ["workspaces", wid, "pipeline", "start"]⟩ : Request) ∈ clientRequests wid did iid eid ∧
    (⟨.post, ["workspaces", wid, "pipeline", "cancel"]⟩ : Request) ∈ clientRequests wid did iid eid ∧
    specPipelinePath ["workspaces", wid, "pipeline"] = true ∧
    specPipelinePath ["workspaces", wid, "pipeline", "start"] = true ∧
    specPipelinePath ["workspaces", wid, "pipeline", "cancel"] = true ∧
    specAllowed ["openapi.json"] = false ∧
    specAllowed ["workspaces", wid, "pipeline", "run"] = false ∧
    specAllowed ["workspaces", wid, "pipeline", "status"] = false ∧
    specAllowed ["workspaces", wid, "runs", runId, "artifacts"] = false ∧
    specAllowed ["workspaces", wid, "runs", runId, "artifacts", artId, "download"] = false := by
  refine ⟨?_, ?_, ?_, ?_, rfl, rfl, rfl, rfl, rfl, rfl, rfl, rfl⟩
  · intro r hr
    fin_cases hr <;> rfl
  · simp [clientRequests]
  · simp [clientRequests]
  · simp [clientRequests]

/-- Witness for the amended C3 at the pipeline-get request with concrete
ids. -/
theorem client_paths_match_spec_witness :
    specAllowed (Request.path ⟨.get, ["workspaces", "w1", "pipeline"]⟩) = true :=
  (client_paths_match_spec "w1" "d1" "i1" "e1" "r1" "a1").1
    ⟨.get, ["workspaces", "w1", "pipeline"]⟩ (by decide)

/-- C7: every mutation hook invalidates, on success, only query keys of the
mutated resource or of its parent workspace; no hook writes a cache entry
directly and no hook invalidates anything on failure. -/
theorem mutations_invalidate_only_own_keys (wid wsId iid : String) :
    ∀ p ∈ mutationHooks wid wsId iid,
      (∀ k ∈ p.1.onSuccessInvalidated, allowedInvalidation p.2 wid k) ∧
      p.1.cacheWrites = [] ∧
      p.1.onErrorInvalidated = [] := by
  intro p hp
  fin_cases hp <;>
    refine ⟨?_, rfl, rfl⟩ <;>
    · intro k hk
      fin_cases hk <;> simp [allowedInvalidation]

/-- Witness for C7 at the document-upload mutation with concrete ids. -/
theorem mutations_invalidate_only_own_keys_witness :
    allowedInvalidation "documents" "w" ["documents", "w"] ∧
    (useUploadDocumentMutation "w").onErrorInvalidated = [] :=
  ⟨(mutations_invalidate_only_own_keys "w" "x" "i"
      (useUploadDocumentMutation "w", "documents") (by decide)).1
        ["documents", "w"] (by decide),
   (mutations_invalidate_only_own_keys "w" "x" "i"
      (useUploadDocumentMutation "w", "documents") (by decide)).2.2⟩

/-- The polling loop returns a result (the fuel never runs out) whenever the
elapsed time reachable within the fuel exceeds the timeout. -/
theorem pollAux_isSome (timeout poll : Nat) (statuses : Nat → String) :
    ∀ fuel k, timeout < (k + fuel) * poll →
      (pollAux timeout poll statuses (fuel + 1) k).isSome = true := by
  intro fuel
  induction fuel with
  | zero =>
    intro k hk
    rw [pollAux]
    split
    · rfl
    · rw [if_pos (by simpa using hk)]
      rfl
  | succ n ih =>
    intro k hk
    rw [pollAux]
    split
    · rfl
    · split
      · rfl
      · exact ih (k + 1) (by rw [show k + 1 + n = k + (n + 1) by omega]; exact hk)

/-- With a positive poll interval, the smoke script's polling loop always
returns a result. -/
theorem pollLoop_isSome (timeout poll : Nat) (statuses : Nat → String)
    (hpoll : 1 ≤ poll) :
    (pollLoop timeout poll statuses).isSome = true := by
  have key : timeout < (timeout / poll + 1) * poll := by
    have h1 := Nat.div_add_mod timeout poll
    have h2 : timeout % poll < poll := Nat.mod_lt _ hpoll
    calc timeout = poll * (timeout / poll) + timeout % poll := h1.symm
      _ < poll * (timeout / poll) + poll := Nat.add_lt_add_left h2 _
      _ = (timeout / poll + 1) * poll := by ring
  have : timeout / poll + 2 = (timeout / poll + 1) + 1 := rfl
  rw [pollLoop, this]
  exact pollAux_isSome timeout poll statuses (timeout / poll + 1) 0 (by simpa using key)

/-- A normal loop exit carries a terminal status. -/
theorem pollAux_finished_terminal (timeout poll : Nat) (statuses : Nat → String) :
    ∀ fuel k s, pollAux timeout poll statuses fuel k = some (.finished s) →
      isTerminal s = true := by
  intro fuel
  induction fuel with
  | zero => intro k s h; simp [pollAux] at h
  | succ n ih =>
    intro k s h
    rw [pollAux] at h
    split at h
    · rename_i ht
      simp only [Option.some.injEq, SmokeResult.finished.injEq] at h
      rw [← h]
      exact ht
    · split at h
      · simp at h
      · exact ih _ _ h

/-- If no status response is ever terminal, the loop ends in the timeout
throw. -/
theorem pollAux_timedOut (timeout poll : Nat) (statuses : Nat → String)
    (hall : ∀ k, isTerminal (statuses k) = false) :
    ∀ fuel k, (pollAux timeout poll statuses fuel k).isSome = true →
      pollAux timeout poll statuses fuel k = some .timedOut := by
  intro fuel
  induction fuel with
  | zero => intro k h; simp [pollAux] at h
  | succ n ih =>
    intro k h
    by_cases hk : k * poll > timeout
    · simp [pollAux, hall, hk]
    · rw [pollAux] at h ⊢
      simp only [hall, Bool.false_eq_true, if_false, hk, ite_false] at h ⊢
      exact ih _ h

/-- C4: the smoke script's request sequence is, in order, reachability probe,
create workspace, start run, poll status, list artifacts, download artifact,
list exports, download export; with a positive poll interval the polling loop
terminates for every sequence of status responses, exiting normally only with
a terminal status (`succeeded`, `failed` or `cancelled`), timing out when no
response is ever terminal, and after the loop the script succeeds exactly
when the final status is `succeeded`. -/
theorem smoke_sequence_and_loop_termination
    (wid runId artId expId : String) (timeout poll : Nat)
    (statuses : Nat → String) (hpoll : 1 ≤ poll) :
    smokeRequests wid runId artId expId =
      [ ⟨.get, ["openapi.json"]⟩,
        ⟨.post, ["workspaces"]⟩,
        ⟨.post, ["workspaces", wid, "pipeline", "run"]⟩,
        ⟨.get, ["workspaces", wid, "pipeline", "status"]⟩,
        ⟨.get, ["workspaces", wid, "runs", runId, "artifacts"]⟩,
        ⟨.get, ["workspaces", wid, "runs", runId, "artifacts", artId, "download"]⟩,
        ⟨.get, ["workspaces", wid, "exports"]⟩,
        ⟨.get, ["workspaces", wid, "exports", expId, "download"]⟩ ] ∧
    (pollLoop timeout poll statuses).isSome = true ∧
    (∀ s, pollLoop timeout poll statuses = some (.finished s) →
      isTerminal s = true) ∧
    ((∀ k, isTerminal (statuses k) = false) →
      pollLoop timeout poll statuses = some .timedOut) ∧
    (∀ r, smokeAfterLoop timeout (some r) = .ok () ↔ r = .finished "succeeded") := by
  refine ⟨rfl, pollLoop_isSome _ _ _ hpoll, ?_, ?_, ?_⟩
  · intro s h
    exact pollAux_finished_terminal timeout poll statuses _ _ _ h
  · intro hall
    exact pollAux_timedOut timeout poll statuses hall _ _
      (pollLoop_isSome _ _ _ hpoll)
  · intro r
    cases r with
    | finished s =>
      by_cases hs : s == "succeeded"
      · simp [smokeAfterLoop, hs, eq_of_beq hs]
      · have : s ≠ "succeeded" := by simpa using hs
        simp [smokeAfterLoop, hs, this]
    | timedOut => simp [smokeAfterLoop]

/-- Witness for C4: with statuses that never become terminal, the loop ends
in the timeout throw. -/
theorem smoke_sequence_and_loop_termination_witness :
    pollLoop 3 1 (fun _ => "running") = some .timedOut :=
  (smoke_sequence_and_loop_termination "w" "r" "a" "e" 3 1
      (fun _ => "running") (by decide)).2.2.2.1 (fun _ => by decide)

end AiAudit
